import Mathlib

/-!
Verification of the WebSocket relay hub (FastAPI server, `main.py`).

The server keeps four pieces of in-memory state:
  * `esp32_connections : Dict[str, WebSocket]` — agent id → live connection;
  * `esp32_meta : Dict[str, {mac, ip, last_seen}]` — debug metadata per agent;
  * `frontends : Set[WebSocket]` — live frontend connections;
  * `state_cache : Dict[(str, str, int), payload]` — last state per sub-device.

We embed the message-routing logic shallowly: a connection handle is a `Nat`,
a JSON message is an association list of string keys to `JVal` values
(protocol messages only carry strings and integers in their fields), Python
dicts become association lists with first-match lookup and in-place
replacement, and the outcome of every `safe_send_json` call is prescribed by
an environment `sendOk : Nat → Bool` (`True`/`False` exactly as the Python
helper returns).  Each send attempt is recorded as a `SendEv` event so the
theorems can speak about which peer was sent which payload and whether the
send succeeded.
-/

namespace ESPHub

/-- JSON values appearing in protocol message fields: strings, integers, null. -/
inductive JVal where
  | jstr (s : String)
  | jint (i : Int)
  | jnull
deriving DecidableEq, Repr

/-- A JSON object message: association list from field name to value. -/
abbrev Msg := List (String × JVal)

/-- Python `dict.get(k)`: first binding of `k`, else `None`. -/
def dictGet {α β : Type} [DecidableEq α] : List (α × β) → α → Option β
  | [], _ => none
  | (k', v) :: rest, k => if k' = k then some v else dictGet rest k

/-- Python `d[k] = v`: replace the binding in place if present, else append. -/
def dictSet {α β : Type} [DecidableEq α] : List (α × β) → α → β → List (α × β)
  | [], k, v => [(k, v)]
  | (k', v') :: rest, k, v =>
      if k' = k then (k, v) :: rest else (k', v') :: dictSet rest k v

/-- Python `d.pop(k, None)`: drop the binding of `k` if present. -/
def dictPop {α β : Type} [DecidableEq α] : List (α × β) → α → List (α × β)
  | [], _ => []
  | (k', v) :: rest, k => if k' = k then rest else (k', v) :: dictPop rest k

/-- Field access on a message, `payload.get("k")`. -/
def jget (m : Msg) (k : String) : Option JVal := dictGet m k

/-- Python `isinstance(x, str)` on an optional field: the string if so. -/
def asStr : Option JVal → Option String
  | some (JVal.jstr s) => some s
  | _ => none

/-- Python `isinstance(x, int)` on an optional field: the integer if so. -/
def asInt : Option JVal → Option Int
  | some (JVal.jint i) => some i
  | _ => none

/-- The cache key `(esp32_id, device, id)`. -/
abbrev CacheKey := String × String × Int

/-- One entry of `esp32_meta`: `{"mac": ..., "ip": ..., "last_seen": ...}`. -/
structure MetaEntry where
  mac : Option JVal
  ip : Option JVal
  last_seen : Option Nat
deriving DecidableEq, Repr

/-- The server's shared mutable state (module-level globals in `main.py`). -/
structure ServerState where
  esp32_connections : List (String × Nat)
  esp32_meta : List (String × MetaEntry)
  frontends : List Nat
  state_cache : List (CacheKey × Msg)
deriving DecidableEq, Repr

/-- One attempted `safe_send_json`: target handle, payload, and whether the
send succeeded (the Bool the Python helper returns). -/
structure SendEv where
  target : Nat
  payload : Msg
  ok : Bool
deriving DecidableEq, Repr

/-- `safe_send_json(ws, payload)` under send environment `sendOk`. -/
def safe_send_json (sendOk : Nat → Bool) (w : Nat) (p : Msg) : SendEv :=
  ⟨w, p, sendOk w⟩

/-- `broadcast_to_frontends(payload)` (main.py:172-182): send to every
frontend in the current set; afterwards discard exactly those whose send
failed.  Returns the surviving frontend set and the list of send attempts. -/
def broadcast_to_frontends (sendOk : Nat → Bool) (fronts : List Nat) (payload : Msg) :
    List Nat × List SendEv :=
  (fronts.filter (fun w => sendOk w),
   fronts.map (fun w => safe_send_json sendOk w payload))

/-- `cache_state(payload)` (main.py:184-195): store under
`(payload["from"], payload["device"], payload["id"])` only when the three
fields are a string, a string and an int; otherwise leave the cache alone. -/
def cache_state (cache : List (CacheKey × Msg)) (payload : Msg) :
    List (CacheKey × Msg) :=
  match asStr (jget payload "from"), asStr (jget payload "device"),
        asInt (jget payload "id") with
  | some esp32_id, some device, some dev_id =>
      dictSet cache (esp32_id, device, dev_id) payload
  | _, _, _ => cache

/-- `get_cached_state_for_esp32(esp32_id)` (main.py:197-203): lookup of the
key `(esp32_id, "relay", 0)`. -/
def get_cached_state_for_esp32 (cache : List (CacheKey × Msg)) (esp32_id : String) :
    Option Msg :=
  dictGet cache (esp32_id, "relay", 0)

/-- The `{"type": "pong"}` reply. -/
def pongMsg : Msg := [("type", JVal.jstr "pong")]

/-- An `{"type": "error", "message": text}` reply. -/
def errorMsg (text : String) : Msg :=
  [("type", JVal.jstr "error"), ("message", JVal.jstr text)]

/-- A `{"type": "warning", "message": text}` reply. -/
def warningMsg (text : String) : Msg :=
  [("type", JVal.jstr "warning"), ("message", JVal.jstr text)]

/-- The `{"type": "get_state", "to": to_id}` request forwarded to an agent. -/
def getStateFwd (to_id : String) : Msg :=
  [("type", JVal.jstr "get_state"), ("to", JVal.jstr to_id)]

/-- The `{"type": "esp32_offline", "id": id}` event. -/
def offlineMsg (id : String) : Msg :=
  [("type", JVal.jstr "esp32_offline"), ("id", JVal.jstr id)]

/-- `esp32_meta.setdefault(esp32_id, {})["last_seen"] = time.time()`
(main.py:291). -/
def meta_touch (meta : List (String × MetaEntry)) (id : String) (now : Nat) :
    List (String × MetaEntry) :=
  match dictGet meta id with
  | some e => dictSet meta id { e with last_seen := some now }
  | none => dictSet meta id ⟨none, none, some now⟩

/-- The `last_seen` update at the top of the receive loop (main.py:290-291):
only when the connection's role is `"esp32"` and it has a truthy id. -/
def touch_last_seen (role : String) (esp32_id : Option String) (now : Nat)
    (st : ServerState) : ServerState :=
  match esp32_id with
  | some id =>
      if role = "esp32" ∧ id ≠ "" then
        { st with esp32_meta := meta_touch st.esp32_meta id now }
      else st
  | none => st

/-- One iteration of the receive loop (main.py:285-379): dispatch an inbound
message `data` from connection `ws` (registered with `role` and, for agents,
`esp32_id`).  Returns the updated server state and the send attempts made. -/
def handle_message (sendOk : Nat → Bool) (now : Nat) (role : String)
    (esp32_id : Option String) (ws : Nat) (st : ServerState) (data : Msg) :
    ServerState × List SendEv :=
  let msg_type := jget data "type"
  let st := touch_last_seen role esp32_id now st
  if msg_type = some (JVal.jstr "ping") then
    (st, [safe_send_json sendOk ws pongMsg])
  else if msg_type = some (JVal.jstr "state") then
    let st := { st with state_cache := cache_state st.state_cache data }
    let bf := broadcast_to_frontends sendOk st.frontends data
    ({ st with frontends := bf.1 }, bf.2)
  else if msg_type = some (JVal.jstr "command") then
    if role ≠ "frontend" then (st, [])
    else
      match asStr (jget data "to") with
      | none => (st, [safe_send_json sendOk ws (errorMsg "command requiere campo 'to'")])
      | some to_id =>
        if to_id = "" then
          (st, [safe_send_json sendOk ws (errorMsg "command requiere campo 'to'")])
        else
          match dictGet st.esp32_connections to_id with
          | none =>
              (st, [safe_send_json sendOk ws
                      (errorMsg ("ESP32 destino no conectado: " ++ to_id))])
          | some target_ws =>
              let fwd := safe_send_json sendOk target_ws data
              if fwd.ok then (st, [fwd])
              else
                ({ st with esp32_connections := dictPop st.esp32_connections to_id },
                 [fwd, safe_send_json sendOk ws
                         (errorMsg ("No se pudo enviar al ESP32: " ++ to_id))])
  else if msg_type = some (JVal.jstr "get_state") then
    if role ≠ "frontend" then (st, [])
    else
      match asStr (jget data "to") with
      | none => (st, [safe_send_json sendOk ws (errorMsg "get_state requiere campo 'to'")])
      | some to_id =>
        if to_id = "" then
          (st, [safe_send_json sendOk ws (errorMsg "get_state requiere campo 'to'")])
        else
          let cachedEvs :=
            match get_cached_state_for_esp32 st.state_cache to_id with
            | some cached => [safe_send_json sendOk ws cached]
            | none => []
          match dictGet st.esp32_connections to_id with
          | some target_ws =>
              (st, cachedEvs ++ [safe_send_json sendOk target_ws (getStateFwd to_id)])
          | none =>
              (st, cachedEvs ++ [safe_send_json sendOk ws
                                   (warningMsg ("ESP32 no conectado: " ++ to_id))])
  else (st, [])

/-- The `finally` cleanup block (main.py:387-400): a frontend is discarded
from the set; an agent's registry entry is removed — and `esp32_offline`
broadcast — only when the registry still maps its id to this very handle. -/
def cleanup (sendOk : Nat → Bool) (role : String) (esp32_id : Option String)
    (ws : Nat) (st : ServerState) : ServerState × List SendEv :=
  let st :=
    if role = "frontend" then
      { st with frontends := st.frontends.filter (fun w => w ≠ ws) }
    else st
  match esp32_id with
  | some id =>
      if role = "esp32" ∧ id ≠ "" then
        if dictGet st.esp32_connections id = some ws then
          let st := { st with esp32_connections := dictPop st.esp32_connections id }
          let bf := broadcast_to_frontends sendOk st.frontends (offlineMsg id)
          ({ st with frontends := bf.1 }, bf.2)
        else (st, [])
      else (st, [])
  | none => (st, [])

/-- The mutations `main.py` ever applies to `esp32_connections`:
registration (line 247), eviction after a failed command forward (line 341),
and the guarded removal in cleanup (lines 397-398). -/
inductive RegOp where
  | register (id : String) (ws : Nat)
  | pop (id : String)
  | popIfSame (id : String) (ws : Nat)

/-- Apply one registry mutation. -/
def applyRegOp (m : List (String × Nat)) : RegOp → List (String × Nat)
  | RegOp.register id ws => dictSet m id ws
  | RegOp.pop id => dictPop m id
  | RegOp.popIfSame id ws => if dictGet m id = some ws then dictPop m id else m

/-- Run a sequence of registry mutations from the initial empty registry. -/
def runRegOps (ops : List RegOp) : List (String × Nat) :=
  ops.foldl applyRegOp []

/-- Number of entries a registry holds for a given key. -/
def countKey : List (String × Nat) → String → Nat
  | [], _ => 0
  | (k', _) :: rest, k => (if k' = k then 1 else 0) + countKey rest k

end ESPHub

namespace ESPHub

theorem dictGet_dictSet_self {α β : Type} [DecidableEq α]
    (m : List (α × β)) (k : α) (v : β) : dictGet (dictSet m k v) k = some v := by
  induction m with
  | nil => simp [dictSet, dictGet]
  | cons p rest ih =>
      obtain ⟨k', v'⟩ := p
      by_cases h : k' = k
      · simp [dictSet, dictGet, h]
      · simp [dictSet, dictGet, h, ih]

theorem countKey_dictSet_self (m : List (String × Nat)) (k : String) (v : Nat) :
    countKey (dictSet m k v) k = max 1 (countKey m k) := by
  induction m with
  | nil => simp [dictSet, countKey]
  | cons p rest ih =>
      obtain ⟨a, b⟩ := p
      by_cases hak : a = k
      · subst hak
        simp [dictSet, countKey]
      · simp [dictSet, countKey, hak, ih]

theorem countKey_dictSet_ne (m : List (String × Nat)) (k : String) (v : Nat)
    (k' : String) (h : k' ≠ k) : countKey (dictSet m k v) k' = countKey m k' := by
  induction m with
  | nil => simp [dictSet, countKey, Ne.symm h]
  | cons p rest ih =>
      obtain ⟨a, b⟩ := p
      by_cases hak : a = k
      · subst hak
        simp [dictSet, countKey]
      · simp [dictSet, countKey, hak, ih]

theorem countKey_dictPop_le (m : List (String × Nat)) (k k' : String) :
    countKey (dictPop m k) k' ≤ countKey m k' := by
  induction m with
  | nil => simp [dictPop]
  | cons p rest ih =>
      obtain ⟨a, b⟩ := p
      by_cases hak : a = k
      · subst hak
        simp only [dictPop, if_pos rfl, countKey]
        exact Nat.le_add_left _ _
      · simp only [dictPop, if_neg hak, countKey]
        exact Nat.add_le_add_left ih _

theorem countKey_applyRegOp_le (m : List (String × Nat)) (op : RegOp) (k : String)
    (h : ∀ k0, countKey m k0 ≤ 1) : countKey (applyRegOp m op) k ≤ 1 := by
  cases op with
  | register id ws =>
      show countKey (dictSet m id ws) k ≤ 1
      by_cases hk : k = id
      · subst hk
        rw [countKey_dictSet_self]
        have := h k
        omega
      · rw [countKey_dictSet_ne m id ws k hk]
        exact h k
  | pop id =>
      exact le_trans (countKey_dictPop_le m id k) (h k)
  | popIfSame id ws =>
      show countKey (if dictGet m id = some ws then dictPop m id else m) k ≤ 1
      split
      · exact le_trans (countKey_dictPop_le m id k) (h k)
      · exact h k

theorem countKey_runRegOps_le (ops : List RegOp) (k : String) :
    countKey (runRegOps ops) k ≤ 1 := by
  suffices h : ∀ m, (∀ k0, countKey m k0 ≤ 1) →
      ∀ k0, countKey (ops.foldl applyRegOp m) k0 ≤ 1 by
    exact h [] (fun k0 => by simp [countKey]) k
  induction ops with
  | nil =>
      intro m hm k0
      simpa using hm k0
  | cons op rest ih =>
      intro m hm k0
      exact ih (applyRegOp m op) (fun k1 => countKey_applyRegOp_le m op k1 hm) k0

theorem dictGet_none_of_countKey_zero (m : List (String × Nat)) (k : String)
    (h : countKey m k = 0) : dictGet m k = none := by
  induction m with
  | nil => simp [dictGet]
  | cons p rest ih =>
      obtain ⟨a, b⟩ := p
      by_cases hak : a = k
      · subst hak
        simp [countKey] at h
      · simp only [countKey, if_neg hak, Nat.zero_add] at h
        simp [dictGet, hak, ih h]

theorem dictGet_dictPop_of_countKey_le_one (m : List (String × Nat)) (k : String)
    (h : countKey m k ≤ 1) : dictGet (dictPop m k) k = none := by
  induction m with
  | nil => simp [dictPop, dictGet]
  | cons p rest ih =>
      obtain ⟨a, b⟩ := p
      by_cases hak : a = k
      · subst hak
        have hrest : countKey rest a = 0 := by
          simp [countKey] at h
          omega
        simp only [dictPop, if_pos rfl]
        exact dictGet_none_of_countKey_zero rest a hrest
      · have h2 : countKey rest k ≤ 1 := by
          simp only [countKey, if_neg hak] at h
          omega
        simp [dictPop, dictGet, hak, ih h2]

end ESPHub

namespace ESPHub

theorem filter_sendOk_eq_erase (fronts : List Nat) (f : Nat) (sendOk : Nat → Bool)
    (hnd : fronts.Nodup) (hs : ∀ w ∈ fronts, sendOk w = true ↔ w ≠ f) :
    fronts.filter (fun w => sendOk w) = fronts.erase f := by
  induction fronts with
  | nil => simp
  | cons a rest ih =>
      have hnd' : rest.Nodup := hnd.of_cons
      have hs' : ∀ w ∈ rest, sendOk w = true ↔ w ≠ f :=
        fun w hw => hs w (List.mem_cons_of_mem a hw)
      by_cases haf : a = f
      · subst haf
        have h1 := hs a (List.mem_cons_self a rest)
        have hafail : sendOk a = false := by
          cases h : sendOk a
          · rfl
          · exact absurd rfl (h1.mp h)
        have hnotmem : a ∉ rest := (List.nodup_cons.mp hnd).1
        have hall : rest.filter (fun w => sendOk w) = rest := by
          apply List.filter_eq_self.mpr
          intro w hw
          exact (hs' w hw).mpr (fun hwf => hnotmem (hwf ▸ hw))
        simp [List.filter_cons, hafail, List.erase_cons_head, hall]
      · have hok : sendOk a = true :=
          (hs a (List.mem_cons_self a rest)).mpr haf
        have hne : ¬(a == f) = true := by simp [haf]
        simp [List.filter_cons, hok, List.erase_cons_tail hne, ih hnd' hs']

/-- C4: starting from the empty registry, every sequence of the registry
mutations that `main.py` performs (register at line 247, pop at line 341,
guarded pop at lines 397-398) leaves at most one `esp32_connections` entry
per agent id; and registering the same id twice with two different
connections leaves exactly the second connection addressable. -/
theorem C4_registry_at_most_one :
    (∀ (ops : List RegOp) (id : String), countKey (runRegOps ops) id ≤ 1) ∧
    (∀ (m : List (String × Nat)) (id : String) (ws1 ws2 : Nat), ws1 ≠ ws2 →
      dictGet (dictSet (dictSet m id ws1) id ws2) id = some ws2) :=
  ⟨fun ops id => countKey_runRegOps_le ops id,
   fun m id ws1 ws2 _ => dictGet_dictSet_self (dictSet m id ws1) id ws2⟩

/-- Witness for C4 at a concrete input: registering "esp32_01" first with
connection 1 and then with connection 2 makes connection 2 the addressable
one. -/
theorem C4_registry_at_most_one_witness :
    (1 : Nat) ≠ 2 ∧
    dictGet (dictSet (dictSet [] "esp32_01" 1) "esp32_01" 2) "esp32_01" = some 2 :=
  ⟨by decide, C4_registry_at_most_one.2 [] "esp32_01" 1 2 (by decide)⟩

/-- C5: broadcasting a payload to a duplicate-free frontend set in which
exactly one handle `f` fails delivers the payload to every other handle,
removes exactly `f` from the frontend set, and keeps the other handles. -/
theorem C5_broadcast_single_failure (sendOk : Nat → Bool) (fronts : List Nat)
    (payload : Msg) (f : Nat) (hnd : fronts.Nodup) (hf : f ∈ fronts)
    (hs : ∀ w ∈ fronts, sendOk w = true ↔ w ≠ f) :
    (broadcast_to_frontends sendOk fronts payload).1 = fronts.erase f ∧
    (∀ w ∈ fronts, w ≠ f →
      SendEv.mk w payload true ∈ (broadcast_to_frontends sendOk fronts payload).2) ∧
    SendEv.mk f payload false ∈ (broadcast_to_frontends sendOk fronts payload).2 := by
  refine ⟨filter_sendOk_eq_erase fronts f sendOk hnd hs, ?_, ?_⟩
  · intro w hw hwf
    have hok : sendOk w = true := (hs w hw).mpr hwf
    have : safe_send_json sendOk w payload = SendEv.mk w payload true := by
      simp [safe_send_json, hok]
    exact this ▸ List.mem_map_of_mem (fun w => safe_send_json sendOk w payload) hw
  · have hfail : sendOk f = false := by
      cases h : sendOk f
      · rfl
      · exact absurd rfl ((hs f hf).mp h)
    have : safe_send_json sendOk f payload = SendEv.mk f payload false := by
      simp [safe_send_json, hfail]
    exact this ▸ List.mem_map_of_mem (fun w => safe_send_json sendOk w payload) hf

/-- Witness for C5 at a concrete input: frontends `[1, 2, 3]`, handle 2
fails; 1 and 3 receive the payload and survive, 2 is removed. -/
theorem C5_broadcast_single_failure_witness :
    ([1, 2, 3] : List Nat).Nodup ∧ (2 : Nat) ∈ ([1, 2, 3] : List Nat) ∧
    (broadcast_to_frontends (fun w => w != 2) [1, 2, 3] pongMsg).1 = [1, 3] ∧
    SendEv.mk 1 pongMsg true ∈ (broadcast_to_frontends (fun w => w != 2) [1, 2, 3] pongMsg).2 ∧
    SendEv.mk 3 pongMsg true ∈ (broadcast_to_frontends (fun w => w != 2) [1, 2, 3] pongMsg).2 ∧
    SendEv.mk 2 pongMsg false ∈ (broadcast_to_frontends (fun w => w != 2) [1, 2, 3] pongMsg).2 := by
  have h := C5_broadcast_single_failure (fun w => w != 2) [1, 2, 3] pongMsg 2
    (by decide) (by decide) (by decide)
  exact ⟨by decide, by decide, h.1, h.2.1 1 (by decide) (by decide),
    h.2.1 3 (by decide) (by decide), h.2.2⟩

/-- C7: storing a message whose `"from"` and `"device"` fields are strings
and whose `"id"` field is an integer makes a lookup of that key return
exactly the stored message; if any of the three key fields is missing or
mistyped, the whole cache is unchanged. -/
theorem C7_cache_put_get (cache : List (CacheKey × Msg)) (payload : Msg)
    (f d : String) (i : Int) :
    (asStr (jget payload "from") = some f →
     asStr (jget payload "device") = some d →
     asInt (jget payload "id") = some i →
     dictGet (cache_state cache payload) (f, d, i) = some payload) ∧
    ((asStr (jget payload "from") = none ∨ asStr (jget payload "device") = none ∨
      asInt (jget payload "id") = none) →
     cache_state cache payload = cache) := by
  constructor
  · intro hf hd hi
    simp only [cache_state, hf, hd, hi]
    exact dictGet_dictSet_self cache (f, d, i) payload
  · intro hbad
    rcases hbad with h | h | h
    · simp only [cache_state, h]
    · rcases h1 : asStr (jget payload "from") with _ | s1 <;>
        simp only [cache_state, h1, h]
    · rcases h1 : asStr (jget payload "from") with _ | s1 <;>
        rcases h2 : asStr (jget payload "device") with _ | s2 <;>
          simp only [cache_state, h1, h2, h]

/-- Witness for C7 at a concrete input: a well-formed state message is
retrievable after `put`, and a message with an integer `"from"` leaves a
non-empty cache unchanged. -/
theorem C7_cache_put_get_witness :
    (asStr (jget [("from", JVal.jstr "e1"), ("device", JVal.jstr "relay"),
                  ("id", JVal.jint 0)] "from") = some "e1" ∧
     asStr (jget [("from", JVal.jstr "e1"), ("device", JVal.jstr "relay"),
                  ("id", JVal.jint 0)] "device") = some "relay" ∧
     asInt (jget [("from", JVal.jstr "e1"), ("device", JVal.jstr "relay"),
                  ("id", JVal.jint 0)] "id") = some 0 ∧
     dictGet (cache_state [] [("from", JVal.jstr "e1"), ("device", JVal.jstr "relay"),
                             ("id", JVal.jint 0)]) ("e1", "relay", 0)
       = some [("from", JVal.jstr "e1"), ("device", JVal.jstr "relay"),
               ("id", JVal.jint 0)]) ∧
    (asStr (jget [("from", JVal.jint 7)] "from") = none ∧
     cache_state [(("e1", "relay", 0), pongMsg)] [("from", JVal.jint 7)]
       = [(("e1", "relay", 0), pongMsg)]) := by
  have h1 := C7_cache_put_get [] [("from", JVal.jstr "e1"), ("device", JVal.jstr "relay"),
    ("id", JVal.jint 0)] "e1" "relay" 0
  have h2 := C7_cache_put_get [(("e1", "relay", 0), pongMsg)] [("from", JVal.jint 7)]
    "x" "y" 0
  exact ⟨⟨by decide, by decide, by decide, h1.1 (by decide) (by decide) (by decide)⟩,
    ⟨by decide, h2.2 (Or.inl (by decide))⟩⟩

end ESPHub

namespace ESPHub

theorem touch_last_seen_frontend (eid : Option String) (now : Nat) (st : ServerState) :
    touch_last_seen "frontend" eid now st = st := by
  cases eid <;> simp [touch_last_seen]

/-- C3: in the cleanup path of an agent connection (role `"esp32"`, truthy
id), the registry entry is removed and `esp32_offline` is broadcast to the
frontends exactly when the registry still maps the id to this very handle;
with a stale handle the whole state is unchanged and nothing is sent. -/
theorem C3_cleanup_guard (sendOk : Nat → Bool) (id : String) (ws : Nat)
    (st : ServerState) (hne : id ≠ "") :
    (dictGet st.esp32_connections id = some ws →
      (cleanup sendOk "esp32" (some id) ws st).1.esp32_connections
        = dictPop st.esp32_connections id ∧
      (countKey st.esp32_connections id ≤ 1 →
        dictGet (cleanup sendOk "esp32" (some id) ws st).1.esp32_connections id
          = none) ∧
      (cleanup sendOk "esp32" (some id) ws st).2
        = st.frontends.map (fun w => safe_send_json sendOk w (offlineMsg id))) ∧
    (dictGet st.esp32_connections id ≠ some ws →
      cleanup sendOk "esp32" (some id) ws st = (st, [])) := by
  constructor
  · intro hg
    refine ⟨?_, ?_, ?_⟩
    · simp [cleanup, hne, hg]
    · intro hc
      have hconn : (cleanup sendOk "esp32" (some id) ws st).1.esp32_connections
          = dictPop st.esp32_connections id := by
        simp [cleanup, hne, hg]
      rw [hconn]
      exact dictGet_dictPop_of_countKey_le_one _ id hc
    · simp [cleanup, hne, hg, broadcast_to_frontends]
  · intro hg
    simp [cleanup, hne, hg]

/-- Witness for C3 at a concrete input: registry `[("e1", 5)]`, one frontend
`7`.  Cleanup with the current handle 5 removes the entry and broadcasts
offline; cleanup with stale handle 9 changes nothing and sends nothing. -/
theorem C3_cleanup_guard_witness :
    ("e1" : String) ≠ "" ∧
    dictGet ([("e1", 5)] : List (String × Nat)) "e1" = some 5 ∧
    ((cleanup (fun _ => true) "esp32" (some "e1") 5
        (ServerState.mk [("e1", 5)] [] [7] [])).1.esp32_connections
       = dictPop [("e1", 5)] "e1" ∧
     (countKey [("e1", 5)] "e1" ≤ 1 →
       dictGet (cleanup (fun _ => true) "esp32" (some "e1") 5
           (ServerState.mk [("e1", 5)] [] [7] [])).1.esp32_connections "e1" = none) ∧
     (cleanup (fun _ => true) "esp32" (some "e1") 5
        (ServerState.mk [("e1", 5)] [] [7] [])).2
       = ([7] : List Nat).map (fun w => safe_send_json (fun _ => true) w (offlineMsg "e1"))) ∧
    cleanup (fun _ => true) "esp32" (some "e1") 9 (ServerState.mk [("e1", 5)] [] [7] [])
      = (ServerState.mk [("e1", 5)] [] [7] [], []) := by
  have h5 := C3_cleanup_guard (fun _ => true) "e1" 5
    (ServerState.mk [("e1", 5)] [] [7] []) (by decide)
  have h9 := C3_cleanup_guard (fun _ => true) "e1" 9
    (ServerState.mk [("e1", 5)] [] [7] []) (by decide)
  exact ⟨by decide, by decide, h5.1 (by decide), h9.2 (by decide)⟩

end ESPHub

namespace ESPHub

@[simp]
theorem touch_last_seen_state_cache (role : String) (eid : Option String)
    (now : Nat) (st : ServerState) :
    (touch_last_seen role eid now st).state_cache = st.state_cache := by
  cases eid with
  | none => rfl
  | some id =>
      simp only [touch_last_seen]
      split <;> rfl

@[simp]
theorem touch_last_seen_frontends (role : String) (eid : Option String)
    (now : Nat) (st : ServerState) :
    (touch_last_seen role eid now st).frontends = st.frontends := by
  cases eid with
  | none => rfl
  | some id =>
      simp only [touch_last_seen]
      split <;> rfl

@[simp]
theorem touch_last_seen_connections (role : String) (eid : Option String)
    (now : Nat) (st : ServerState) :
    (touch_last_seen role eid now st).esp32_connections = st.esp32_connections := by
  cases eid with
  | none => rfl
  | some id =>
      simp only [touch_last_seen]
      split <;> rfl

theorem cache_state_eq_of_malformed (cache : List (CacheKey × Msg)) (payload : Msg)
    (hbad : asStr (jget payload "from") = none ∨ asStr (jget payload "device") = none ∨
            asInt (jget payload "id") = none) :
    cache_state cache payload = cache := by
  rcases hbad with h | h | h
  · simp only [cache_state, h]
  · rcases h1 : asStr (jget payload "from") with _ | s1 <;>
      simp only [cache_state, h1, h]
  · rcases h1 : asStr (jget payload "from") with _ | s1 <;>
      rcases h2 : asStr (jget payload "device") with _ | s2 <;>
        simp only [cache_state, h1, h2, h]

/-- C8: a `command` from a frontend whose (non-empty string) `"to"` field
has no entry in the agent registry yields exactly one error reply to the
sender and leaves the whole server state unchanged. -/
theorem C8_command_unknown_target (sendOk : Nat → Bool) (now : Nat)
    (eid : Option String) (ws : Nat) (st : ServerState) (data : Msg) (to_id : String)
    (htype : jget data "type" = some (JVal.jstr "command"))
    (hto : asStr (jget data "to") = some to_id) (hne : to_id ≠ "")
    (hmiss : dictGet st.esp32_connections to_id = none) :
    handle_message sendOk now "frontend" eid ws st data
      = (st, [SendEv.mk ws (errorMsg ("ESP32 destino no conectado: " ++ to_id))
                (sendOk ws)]) := by
  simp [handle_message, htype, touch_last_seen_frontend, hto, hne, hmiss,
    safe_send_json]

/-- Witness for C8 at a concrete input: a command to the unregistered id
`"esp32_02"` from frontend 7 returns one error reply and changes nothing. -/
theorem C8_command_unknown_target_witness :
    jget [("type", JVal.jstr "command"), ("to", JVal.jstr "esp32_02")] "type"
      = some (JVal.jstr "command") ∧
    asStr (jget [("type", JVal.jstr "command"), ("to", JVal.jstr "esp32_02")] "to")
      = some "esp32_02" ∧
    ("esp32_02" : String) ≠ "" ∧
    dictGet (ServerState.mk [("esp32_01", 5)] [] [7] []).esp32_connections "esp32_02"
      = none ∧
    handle_message (fun _ => true) 0 "frontend" none 7
        (ServerState.mk [("esp32_01", 5)] [] [7] [])
        [("type", JVal.jstr "command"), ("to", JVal.jstr "esp32_02")]
      = (ServerState.mk [("esp32_01", 5)] [] [7] [],
         [SendEv.mk 7 (errorMsg ("ESP32 destino no conectado: " ++ "esp32_02")) true]) := by
  refine ⟨by decide, by decide, by decide, by decide, ?_⟩
  exact C8_command_unknown_target (fun _ => true) 0 none 7
    (ServerState.mk [("esp32_01", 5)] [] [7] [])
    [("type", JVal.jstr "command"), ("to", JVal.jstr "esp32_02")] "esp32_02"
    (by decide) (by decide) (by decide) (by decide)

end ESPHub

namespace ESPHub

/-- C6: a `get_state` from a frontend with a non-empty string `"to"` field:
a cached `(to, "relay", 0)` entry is sent to the requester regardless of the
target agent's connectivity; independently, a `get_state` request is
forwarded to the target agent when it is connected, and a warning is sent to
the requester when it is not. -/
theorem C6_get_state_behavior (sendOk : Nat → Bool) (now : Nat)
    (eid : Option String) (ws : Nat) (st : ServerState) (data : Msg) (to_id : String)
    (htype : jget data "type" = some (JVal.jstr "get_state"))
    (hto : asStr (jget data "to") = some to_id) (hne : to_id ≠ "") :
    (∀ c, get_cached_state_for_esp32 st.state_cache to_id = some c →
      SendEv.mk ws c (sendOk ws)
        ∈ (handle_message sendOk now "frontend" eid ws st data).2) ∧
    (∀ target, dictGet st.esp32_connections to_id = some target →
      SendEv.mk target (getStateFwd to_id) (sendOk target)
        ∈ (handle_message sendOk now "frontend" eid ws st data).2) ∧
    (dictGet st.esp32_connections to_id = none →
      SendEv.mk ws (warningMsg ("ESP32 no conectado: " ++ to_id)) (sendOk ws)
        ∈ (handle_message sendOk now "frontend" eid ws st data).2) := by
  refine ⟨?_, ?_, ?_⟩
  · intro c hc
    rcases hconn : dictGet st.esp32_connections to_id with _ | target <;>
      simp [handle_message, htype, touch_last_seen_frontend, hto, hne, hc, hconn,
        safe_send_json]
  · intro target hconn
    rcases hc : get_cached_state_for_esp32 st.state_cache to_id with _ | c <;>
      simp [handle_message, htype, touch_last_seen_frontend, hto, hne, hc, hconn,
        safe_send_json]
  · intro hconn
    rcases hc : get_cached_state_for_esp32 st.state_cache to_id with _ | c <;>
      simp [handle_message, htype, touch_last_seen_frontend, hto, hne, hc, hconn,
        safe_send_json]

/-- Witness for C6 at a concrete input: the cache holds an entry for
`("esp32_01", "relay", 0)` while the agent is NOT connected — the frontend
receives the cached message and the warning. -/
theorem C6_get_state_behavior_witness :
    jget [("type", JVal.jstr "get_state"), ("to", JVal.jstr "esp32_01")] "type"
      = some (JVal.jstr "get_state") ∧
    asStr (jget [("type", JVal.jstr "get_state"), ("to", JVal.jstr "esp32_01")] "to")
      = some "esp32_01" ∧
    ("esp32_01" : String) ≠ "" ∧
    SendEv.mk 7 pongMsg true
      ∈ (handle_message (fun _ => true) 0 "frontend" none 7
          (ServerState.mk [] [] [7] [(("esp32_01", "relay", 0), pongMsg)])
          [("type", JVal.jstr "get_state"), ("to", JVal.jstr "esp32_01")]).2 ∧
    SendEv.mk 7 (warningMsg ("ESP32 no conectado: " ++ "esp32_01")) true
      ∈ (handle_message (fun _ => true) 0 "frontend" none 7
          (ServerState.mk [] [] [7] [(("esp32_01", "relay", 0), pongMsg)])
          [("type", JVal.jstr "get_state"), ("to", JVal.jstr "esp32_01")]).2 := by
  have h := C6_get_state_behavior (fun _ => true) 0 none 7
    (ServerState.mk [] [] [7] [(("esp32_01", "relay", 0), pongMsg)])
    [("type", JVal.jstr "get_state"), ("to", JVal.jstr "esp32_01")] "esp32_01"
    (by decide) (by decide) (by decide)
  exact ⟨by decide, by decide, by decide, h.1 pongMsg (by decide), h.2.2 (by decide)⟩

/-- C9 (implicit): an inbound `"state"` message that fails cache validation
(missing or mistyped `"from"`, `"device"` or `"id"`) is still broadcast
verbatim to every frontend, while the cache is left unchanged — whatever the
sender's role. -/
theorem C9_malformed_state_broadcast (sendOk : Nat → Bool) (now : Nat)
    (role : String) (eid : Option String) (ws : Nat) (st : ServerState) (data : Msg)
    (htype : jget data "type" = some (JVal.jstr "state"))
    (hbad : asStr (jget data "from") = none ∨ asStr (jget data "device") = none ∨
            asInt (jget data "id") = none) :
    (handle_message sendOk now role eid ws st data).1.state_cache = st.state_cache ∧
    (handle_message sendOk now role eid ws st data).2
      = st.frontends.map (fun w => safe_send_json sendOk w data) := by
  have hc := cache_state_eq_of_malformed st.state_cache data hbad
  constructor
  · simp [handle_message, htype, broadcast_to_frontends, hc]
  · simp [handle_message, htype, broadcast_to_frontends]

/-- Witness for C9 at a concrete input: a state message with no `"from"`
field, sent by a frontend, reaches frontend 7 verbatim and the cache stays
empty. -/
theorem C9_malformed_state_broadcast_witness :
    jget [("type", JVal.jstr "state"), ("state", JVal.jstr "on")] "type"
      = some (JVal.jstr "state") ∧
    asStr (jget [("type", JVal.jstr "state"), ("state", JVal.jstr "on")] "from")
      = none ∧
    (handle_message (fun _ => true) 0 "frontend" none 7 (ServerState.mk [] [] [7] [])
        [("type", JVal.jstr "state"), ("state", JVal.jstr "on")]).1.state_cache = [] ∧
    (handle_message (fun _ => true) 0 "frontend" none 7 (ServerState.mk [] [] [7] [])
        [("type", JVal.jstr "state"), ("state", JVal.jstr "on")]).2
      = ([7] : List Nat).map (fun w => safe_send_json (fun _ => true) w
          [("type", JVal.jstr "state"), ("state", JVal.jstr "on")]) := by
  have h := C9_malformed_state_broadcast (fun _ => true) 0 "frontend" none 7
    (ServerState.mk [] [] [7] []) [("type", JVal.jstr "state"), ("state", JVal.jstr "on")]
    (by decide) (Or.inl (by decide))
  exact ⟨by decide, by decide, h.1, h.2⟩

end ESPHub

namespace ESPHub

/-- C10 (implicit): when a `command` forward to a registered agent fails,
no `esp32_offline` event is broadcast (the only reply goes to the commanding
frontend) and the agent's metadata entry is left untouched. -/
theorem C10_command_fail_frame (sendOk : Nat → Bool) (now : Nat)
    (eid : Option String) (ws : Nat) (st : ServerState) (data : Msg)
    (to_id : String) (target : Nat)
    (htype : jget data "type" = some (JVal.jstr "command"))
    (hto : asStr (jget data "to") = some to_id) (hne : to_id ≠ "")
    (hconn : dictGet st.esp32_connections to_id = some target)
    (hfail : sendOk target = false) :
    (handle_message sendOk now "frontend" eid ws st data).1.esp32_meta
      = st.esp32_meta ∧
    (handle_message sendOk now "frontend" eid ws st data).2
      = [SendEv.mk target data false,
         SendEv.mk ws (errorMsg ("No se pudo enviar al ESP32: " ++ to_id)) (sendOk ws)] ∧
    (∀ e ∈ (handle_message sendOk now "frontend" eid ws st data).2,
      jget e.payload "type" ≠ some (JVal.jstr "esp32_offline")) := by
  have hred : handle_message sendOk now "frontend" eid ws st data
      = ({ st with esp32_connections := dictPop st.esp32_connections to_id },
         [SendEv.mk target data false,
          SendEv.mk ws (errorMsg ("No se pudo enviar al ESP32: " ++ to_id))
            (sendOk ws)]) := by
    simp [handle_message, htype, touch_last_seen_frontend, hto, hne, hconn, hfail,
      safe_send_json]
  refine ⟨by rw [hred], by rw [hred], ?_⟩
  intro e he
  rw [hred] at he
  simp only [List.mem_cons, List.not_mem_nil, or_false] at he
  rcases he with rfl | rfl
  · simp [htype]
  · simp [errorMsg, jget, dictGet]

/-- Witness for C10 at a concrete input: command from frontend 7 to
`"esp32_01"` held by connection 5 whose send fails. -/
theorem C10_command_fail_frame_witness :
    jget [("type", JVal.jstr "command"), ("to", JVal.jstr "esp32_01")] "type"
      = some (JVal.jstr "command") ∧
    asStr (jget [("type", JVal.jstr "command"), ("to", JVal.jstr "esp32_01")] "to")
      = some "esp32_01" ∧
    ("esp32_01" : String) ≠ "" ∧
    dictGet (ServerState.mk [("esp32_01", 5)]
        [("esp32_01", MetaEntry.mk none none (some 3))] [7] []).esp32_connections
        "esp32_01" = some 5 ∧
    ((fun w : Nat => w != 5) 5) = false ∧
    (handle_message (fun w => w != 5) 0 "frontend" none 7
        (ServerState.mk [("esp32_01", 5)]
          [("esp32_01", MetaEntry.mk none none (some 3))] [7] [])
        [("type", JVal.jstr "command"), ("to", JVal.jstr "esp32_01")]).1.esp32_meta
      = [("esp32_01", MetaEntry.mk none none (some 3))] ∧
    (∀ e ∈ (handle_message (fun w => w != 5) 0 "frontend" none 7
        (ServerState.mk [("esp32_01", 5)]
          [("esp32_01", MetaEntry.mk none none (some 3))] [7] [])
        [("type", JVal.jstr "command"), ("to", JVal.jstr "esp32_01")]).2,
      jget e.payload "type" ≠ some (JVal.jstr "esp32_offline")) := by
  have h := C10_command_fail_frame (fun w => w != 5) 0 none 7
    (ServerState.mk [("esp32_01", 5)]
      [("esp32_01", MetaEntry.mk none none (some 3))] [7] [])
    [("type", JVal.jstr "command"), ("to", JVal.jstr "esp32_01")] "esp32_01" 5
    (by decide) (by decide) (by decide) (by decide) (by decide)
  exact ⟨by decide, by decide, by decide, by decide, by decide, h.1, h.2.2⟩

end ESPHub

namespace ESPHub

/-- A well-formed relay state message, as in the protocol docstring. -/
def relayStateMsg : Msg :=
  [("type", JVal.jstr "state"), ("from", JVal.jstr "esp32_01"),
   ("device", JVal.jstr "relay"), ("id", JVal.jint 0), ("state", JVal.jstr "on")]

/-- C1 counterexample: a `"state"` message arriving from a connection
registered as a FRONTEND is nevertheless stored in the cache and broadcast
to the frontends — the dispatcher applies no role guard on state messages. -/
theorem C1_counterexample :
    (handle_message (fun _ => true) 0 "frontend" none 7
        (ServerState.mk [] [] [7] []) relayStateMsg).1.state_cache
      = [(("esp32_01", "relay", 0), relayStateMsg)] ∧
    (handle_message (fun _ => true) 0 "frontend" none 7
        (ServerState.mk [] [] [7] []) relayStateMsg).2
      = [SendEv.mk 7 relayStateMsg true] := by decide

/-- C1 amended: a `"state"` message is validated+stored into the cache and
broadcast verbatim to all frontends REGARDLESS of the sender's role — the
receive loop dispatches on the message type alone, so a state message from a
frontend connection is processed exactly like one from an agent. -/
theorem C1_state_no_role_guard (sendOk : Nat → Bool) (now : Nat) (role : String)
    (eid : Option String) (ws : Nat) (st : ServerState) (data : Msg)
    (htype : jget data "type" = some (JVal.jstr "state")) :
    (handle_message sendOk now role eid ws st data).1.state_cache
      = cache_state st.state_cache data ∧
    (handle_message sendOk now role eid ws st data).1.frontends
      = st.frontends.filter (fun w => sendOk w) ∧
    (handle_message sendOk now role eid ws st data).2
      = st.frontends.map (fun w => safe_send_json sendOk w data) := by
  refine ⟨?_, ?_, ?_⟩ <;> simp [handle_message, htype, broadcast_to_frontends]

/-- Witness for C1's amended statement at a concrete input: the frontend
role, with the well-formed relay state message. -/
theorem C1_state_no_role_guard_witness :
    jget relayStateMsg "type" = some (JVal.jstr "state") ∧
    (handle_message (fun _ => true) 0 "frontend" none 7
        (ServerState.mk [] [] [7] []) relayStateMsg).1.state_cache
      = cache_state [] relayStateMsg ∧
    (handle_message (fun _ => true) 0 "frontend" none 7
        (ServerState.mk [] [] [7] []) relayStateMsg).2
      = ([7] : List Nat).map (fun w => safe_send_json (fun _ => true) w relayStateMsg) := by
  have h := C1_state_no_role_guard (fun _ => true) 0 "frontend" none 7
    (ServerState.mk [] [] [7] []) relayStateMsg (by decide)
  exact ⟨by decide, h.1, h.2.2⟩

/-- C2 counterexample: a `get_state` forward to registered agent connection 5
fails (`sendOk 5 = false`), yet the stale entry is NOT evicted and NO error
reply is sent to the requesting frontend 7 — the failure is only logged. -/
theorem C2_counterexample :
    handle_message (fun w => w != 5) 0 "frontend" none 7
        (ServerState.mk [("esp32_01", 5)] [] [] [])
        [("type", JVal.jstr "get_state"), ("to", JVal.jstr "esp32_01")]
      = (ServerState.mk [("esp32_01", 5)] [] [] [],
         [SendEv.mk 5 (getStateFwd "esp32_01") false]) := by decide

/-- C2 amended: only the `command` forward has failure handling — a failed
command forward evicts exactly the stale registry entry and sends one error
reply to the sender, with no retry; a failed `get_state` forward performs no
eviction and sends no reply to the sender (it is only logged), also with no
retry. -/
theorem C2_forward_failure_split :
    (∀ (sendOk : Nat → Bool) (now : Nat) (eid : Option String) (ws : Nat)
       (st : ServerState) (data : Msg) (to_id : String) (target : Nat),
      jget data "type" = some (JVal.jstr "command") →
      asStr (jget data "to") = some to_id → to_id ≠ "" →
      dictGet st.esp32_connections to_id = some target → sendOk target = false →
      handle_message sendOk now "frontend" eid ws st data
        = ({ st with esp32_connections := dictPop st.esp32_connections to_id },
           [SendEv.mk target data false,
            SendEv.mk ws (errorMsg ("No se pudo enviar al ESP32: " ++ to_id))
              (sendOk ws)])) ∧
    (∀ (sendOk : Nat → Bool) (now : Nat) (eid : Option String) (ws : Nat)
       (st : ServerState) (data : Msg) (to_id : String) (target : Nat),
      jget data "type" = some (JVal.jstr "get_state") →
      asStr (jget data "to") = some to_id → to_id ≠ "" →
      dictGet st.esp32_connections to_id = some target → sendOk target = false →
      handle_message sendOk now "frontend" eid ws st data
        = (st, (match get_cached_state_for_esp32 st.state_cache to_id with
                | some c => [safe_send_json sendOk ws c]
                | none => []) ++ [SendEv.mk target (getStateFwd to_id) false])) := by
  constructor
  · intro sendOk now eid ws st data to_id target htype hto hne hconn hfail
    simp [handle_message, htype, touch_last_seen_frontend, hto, hne, hconn, hfail,
      safe_send_json]
  · intro sendOk now eid ws st data to_id target htype hto hne hconn hfail
    rcases hc : get_cached_state_for_esp32 st.state_cache to_id with _ | c <;>
      simp [handle_message, htype, touch_last_seen_frontend, hto, hne, hconn, hfail,
        hc, safe_send_json]

/-- Witness for C2's amended statement at concrete inputs: registry
`[("esp32_01", 5)]`, sends to 5 fail.  The command forward evicts and
replies an error; the `get_state` forward leaves the state untouched and
sends nothing to the requester. -/
theorem C2_forward_failure_split_witness :
    jget [("type", JVal.jstr "command"), ("to", JVal.jstr "esp32_01")] "type"
      = some (JVal.jstr "command") ∧
    dictGet (ServerState.mk [("esp32_01", 5)] [] [] []).esp32_connections "esp32_01"
      = some 5 ∧
    ((fun w : Nat => w != 5) 5) = false ∧
    handle_message (fun w => w != 5) 0 "frontend" none 7
        (ServerState.mk [("esp32_01", 5)] [] [] [])
        [("type", JVal.jstr "command"), ("to", JVal.jstr "esp32_01")]
      = ({ ServerState.mk [("esp32_01", 5)] [] [] [] with
            esp32_connections := dictPop [("esp32_01", 5)] "esp32_01" },
         [SendEv.mk 5 [("type", JVal.jstr "command"), ("to", JVal.jstr "esp32_01")] false,
          SendEv.mk 7 (errorMsg ("No se pudo enviar al ESP32: " ++ "esp32_01")) true]) ∧
    handle_message (fun w => w != 5) 0 "frontend" none 7
        (ServerState.mk [("esp32_01", 5)] [] [] [])
        [("type", JVal.jstr "get_state"), ("to", JVal.jstr "esp32_01")]
      = (ServerState.mk [("esp32_01", 5)] [] [] [],
         (match get_cached_state_for_esp32
             (ServerState.mk [("esp32_01", 5)] [] [] []).state_cache "esp32_01" with
          | some c => [safe_send_json (fun w => w != 5) 7 c]
          | none => []) ++ [SendEv.mk 5 (getStateFwd "esp32_01") false]) := by
  refine ⟨by decide, by decide, by decide, ?_, ?_⟩
  · exact C2_forward_failure_split.1 (fun w => w != 5) 0 none 7
      (ServerState.mk [("esp32_01", 5)] [] [] [])
      [("type", JVal.jstr "command"), ("to", JVal.jstr "esp32_01")] "esp32_01" 5
      (by decide) (by decide) (by decide) (by decide) (by decide)
  · exact C2_forward_failure_split.2 (fun w => w != 5) 0 none 7
      (ServerState.mk [("esp32_01", 5)] [] [] [])
      [("type", JVal.jstr "get_state"), ("to", JVal.jstr "esp32_01")] "esp32_01" 5
      (by decide) (by decide) (by decide) (by decide) (by decide)

end ESPHub
